import Mathlib

/-
Verification of the capture script `jules-scratch/verification/verify_admin_page.py`.

The script is straight-line code driving a browser-automation library:

  def run(playwright):
      browser = playwright.chromium.launch()
      page = browser.new_page()
      page.goto("http://localhost:3000/#/admin")
      page.wait_for_timeout(5000)
      page.screenshot(path="jules-scratch/verification/admin_page.png")
      browser.close()

  with sync_playwright() as playwright:
      run(playwright)

We embed it as a fixed instruction list (the body of `run`, in source order)
interpreted sequentially.  External calls (engine launch, navigation,
screenshot write) may fail; an `Env` records which external steps fail on a
given run.  A run produces the trace of browser-automation operations that
completed, together with a success flag.  The first failing step aborts the
rest of the body (an uncaught exception); the surrounding context manager
(`with sync_playwright()`) still performs its shutdown on every exit path
before the failure propagates.
-/

namespace Allenventure

/-- The browser-automation operations the script can issue, one constructor per
API call appearing in the source, plus the context-manager shutdown performed
by `with sync_playwright()` on exit. -/
inductive Op where
  | launchBrowser : Op
  | newPage : Op
  | goto : String → Op
  | waitForTimeout : Nat → Op
  | screenshot : String → Op
  | closeBrowser : Op
  | stopPlaywright : Op
deriving DecidableEq

/-- The hard-coded navigation target (source line 6). -/
def targetURL : String := "http://localhost:3000/#/admin"

/-- The hard-coded wait duration in milliseconds (source line 7). -/
def waitMs : Nat := 5000

/-- The hard-coded screenshot output path (source line 8). -/
def outputPath : String := "jules-scratch/verification/admin_page.png"

/-- Which external steps fail on a given run.  Only the calls that reach
outside the process can fail: engine launch, page creation, navigation, and
the screenshot's filesystem write.  `wait_for_timeout` and `close` are
modelled as non-failing. -/
structure Env where
  launchFails : Bool
  newPageFails : Bool
  gotoFails : Bool
  screenshotFails : Bool
deriving DecidableEq, Fintype

/-- The statements of the body of `run`, one constructor per source line. -/
inductive Instr where
  | launch : Instr
  | newPage : Instr
  | goto : String → Instr
  | waitForTimeout : Nat → Instr
  | screenshot : String → Instr
  | close : Instr
deriving DecidableEq

/-- The body of `run` (source lines 4-9), in source order.  The source is
straight-line: a literal list of six calls with hard-coded arguments. -/
def runBody : List Instr :=
  [Instr.launch, Instr.newPage, Instr.goto targetURL,
   Instr.waitForTimeout waitMs, Instr.screenshot outputPath, Instr.close]

/-- Whether a statement fails in the given environment. -/
def Instr.fails (env : Env) : Instr → Bool
  | .launch => env.launchFails
  | .newPage => env.newPageFails
  | .goto _ => env.gotoFails
  | .waitForTimeout _ => false
  | .screenshot _ => env.screenshotFails
  | .close => false

/-- The operation a statement issues when it completes. -/
def Instr.op : Instr → Op
  | .launch => Op.launchBrowser
  | .newPage => Op.newPage
  | .goto u => Op.goto u
  | .waitForTimeout ms => Op.waitForTimeout ms
  | .screenshot p => Op.screenshot p
  | .close => Op.closeBrowser

/-- Sequential execution of a statement list: each statement runs in order;
the first failure aborts the rest (an uncaught exception).  Returns the trace
of completed operations and whether every statement completed. -/
def execBody (env : Env) : List Instr → List Op × Bool
  | [] => ([], true)
  | i :: rest =>
    if i.fails env then ([], false)
    else
      let r := execBody env rest
      (i.op :: r.1, r.2)

/-- The function `run` (source lines 3-9): executes its body sequentially. -/
def run (env : Env) : List Op × Bool := execBody env runBody

/-- The whole script (source lines 11-12): `run` inside
`with sync_playwright()`.  The context manager's shutdown runs on every exit
path, normal or exceptional, and the script's exit status is success exactly
when the body raised nothing. -/
def script (env : Env) : List Op × Bool :=
  ((run env).1 ++ [Op.stopPlaywright], (run env).2)

/-- The full operation trace of a run on which no step fails. -/
def fullTrace : List Op :=
  [Op.launchBrowser, Op.newPage, Op.goto targetURL, Op.waitForTimeout waitMs,
   Op.screenshot outputPath, Op.closeBrowser, Op.stopPlaywright]

/-- The environment in which no external step fails. -/
def noFailure : Env := ⟨false, false, false, false⟩

example : script noFailure = (fullTrace, true) := by decide

example : script ⟨true, false, false, false⟩ = ([Op.stopPlaywright], false) := by decide

/-- A filesystem: a map from paths to file contents (contents abstracted as a
number identifying the captured image). -/
def FS : Type := String → Option Nat

/-- The filesystem effect of one completed operation.  Only `screenshot`
touches the filesystem: it writes the captured image at its path,
unconditionally replacing whatever was there (the automation library's
screenshot call neither creates directories nor checks for collisions; it
just writes the file). -/
def applyOp (img : Nat) (fs : FS) : Op → FS
  | .screenshot p => fun q => if q = p then some img else fs q
  | _ => fs

/-- The filesystem after a trace of completed operations, where `img`
identifies the image captured by this run. -/
def applyTrace (img : Nat) (tr : List Op) (fs : FS) : FS :=
  tr.foldl (applyOp img) fs

/-- Lifecycle of the browser engine launched on source line 4. -/
inductive EngineState where
  | off : EngineState
  | running : EngineState
  | closed : EngineState
deriving DecidableEq

/-- One step of the engine lifecycle.  `launch` starts the engine;
`browser.close()` shuts it down; stopping the playwright driver (the
context-manager exit) also shuts down any engine still running — the scoped
resource's automatic cleanup.  Other operations leave the engine state
unchanged. -/
def engineStep : EngineState → Op → EngineState
  | _, .launchBrowser => .running
  | .running, .closeBrowser => .closed
  | .running, .stopPlaywright => .closed
  | s, _ => s

/-- Engine state at the end of a trace. -/
def finalEngineState (tr : List Op) : EngineState :=
  tr.foldl engineStep .off

/-- How many times a trace acquires the browser engine. -/
def acqCount (tr : List Op) : Nat :=
  (tr.filter (· = Op.launchBrowser)).length

/-- Release counting, threading the engine state: a release is a transition
from `running` to `closed`. -/
def relCountAux : EngineState → List Op → Nat
  | _, [] => 0
  | s, o :: rest =>
    (if s = EngineState.running ∧ engineStep s o = EngineState.closed
     then 1 else 0) + relCountAux (engineStep s o) rest

/-- How many times a trace releases the browser engine. -/
def relCount (tr : List Op) : Nat :=
  relCountAux EngineState.off tr

/-- The guaranteed duration of each operation in milliseconds:
`wait_for_timeout ms` suspends for at least `ms`; every other operation may
take any amount of time, so its guaranteed duration is 0. -/
def minDuration : Op → Nat
  | .waitForTimeout ms => ms
  | _ => 0

/-- The side-effect kind of an operation, for the effect frame: launching the
external browser process. -/
def isProcessLaunch : Op → Bool
  | .launchBrowser => true
  | _ => false

/-- The side-effect kind of an operation: issuing a network/local request. -/
def isRequest : Op → Bool
  | .goto _ => true
  | _ => false

/-- The side-effect kind of an operation: writing a file. -/
def isFileWrite : Op → Bool
  | .screenshot _ => true
  | _ => false

/-- The part of a URL the server sees: everything before the first `#`.
A browser strips the fragment before issuing the request. -/
def serverVisiblePart (url : String) : String :=
  String.mk (url.toList.takeWhile (· != '#'))

/-- The fragment of a URL: everything after the first `#`, or `none` when the
URL has no `#`. -/
def fragmentPart (url : String) : Option String :=
  match url.toList.dropWhile (· != '#') with
  | [] => none
  | _ :: rest => some (String.mk rest)

/-- An invocation of the script: command-line arguments and environment
variables. -/
structure Invocation where
  args : List String
  envVars : String → Option String

/-- The script as invoked from the command line.  The source reads neither
`sys.argv` nor any environment variable, so the invocation is ignored
entirely. -/
def scriptWithInvocation (_invoc : Invocation) (env : Env) : List Op × Bool :=
  script env

/-- The empty filesystem. -/
def emptyFS : FS := fun _ => none

/-- A run exits successfully exactly when no external step fails. -/
lemma script_ok_iff : ∀ env : Env, ((script env).2 = true ↔ env = noFailure) := by
  decide

/-- A successful run performs the full fixed trace. -/
lemma script_ok_trace : ∀ env : Env, (script env).2 = true → (script env).1 = fullTrace := by
  decide

/-- Every operation any run performs occurs in the full fixed trace: no run
ever issues an operation outside the fixed sequence. -/
lemma mem_script_trace (env : Env) (o : Op) (h : o ∈ (script env).1) : o ∈ fullTrace := by
  obtain ⟨a, b, c, d⟩ := env
  cases a <;> cases b <;> cases c <;> cases d <;>
    simp [script, run, execBody, runBody, Instr.fails, Instr.op, fullTrace] at h ⊢ <;>
    tauto

/-- Every run's trace is a prefix of the body's operation sequence followed by
the driver shutdown. -/
lemma script_trace_shape : ∀ env : Env,
    (script env).1 = (runBody.map Instr.op).take ((script env).1.length - 1) ++ [Op.stopPlaywright] := by
  decide

/-- Applying the full trace to a filesystem updates exactly the output path
with the captured image and leaves every other path unchanged. -/
lemma applyTrace_fullTrace (img : Nat) (fs : FS) (q : String) :
    applyTrace img fullTrace fs q = if q = outputPath then some img else fs q := by
  simp [applyTrace, fullTrace, applyOp, List.foldl]

/-- C1 counterexample: on the run where the browser engine fails to launch,
the Capture Runner performs none of the six fixed operations, so the claim
that every run performs exactly the fixed six-operation sequence is false. -/
theorem c1_counterexample :
    ¬ ((run ⟨true, false, false, false⟩).1 = runBody.map Instr.op) := by
  decide

/-- C1 (amended): the Capture Runner's body is exactly the fixed sequence —
start engine, open new page, navigate to the fixed target URL, wait the
fixed duration, capture the screenshot to the fixed output path, shut down
the engine — with no branching, no loops and no other operations; every run
executes it sequentially from the start, performing an initial segment of
this sequence, and a run on which no step fails performs exactly the whole
sequence in this order. -/
theorem c1_fixed_sequence :
    runBody = [Instr.launch, Instr.newPage,
      Instr.goto "http://localhost:3000/#/admin",
      Instr.waitForTimeout 5000,
      Instr.screenshot "jules-scratch/verification/admin_page.png",
      Instr.close] ∧
    (∀ env : Env, (run env).1 <+: runBody.map Instr.op) ∧
    (∀ env : Env, (run env).2 = true → (run env).1 = runBody.map Instr.op) := by
  refine ⟨rfl, ?_, ?_⟩ <;> decide

/-- C1 witness: on the run where no step fails, the Capture Runner performs
exactly the fixed sequence. -/
theorem c1_fixed_sequence_witness :
    (run noFailure).2 = true ∧ (run noFailure).1 = runBody.map Instr.op :=
  ⟨by decide, c1_fixed_sequence.2.2 noFailure (by decide)⟩

/-- C2: the script catches nothing: it exits successfully exactly when every
step completes (no external step fails), and on every successful exit the
screenshot has been written. -/
theorem c2_failure_propagation :
    (∀ env : Env, ((script env).2 = true ↔ env = noFailure)) ∧
    (∀ env : Env, (script env).2 = true → Op.screenshot outputPath ∈ (script env).1) := by
  refine ⟨script_ok_iff, ?_⟩
  decide

/-- C2 witness: the run on which no step fails exits successfully and its
trace contains the screenshot write. -/
theorem c2_failure_propagation_witness :
    ((script noFailure).2 = true ↔ noFailure = noFailure) ∧
    Op.screenshot outputPath ∈ (script noFailure).1 :=
  ⟨c2_failure_propagation.1 noFailure, c2_failure_propagation.2 noFailure (by decide)⟩

/-- C3 counterexample: on the run where the engine fails to launch, the
engine is acquired zero times and released zero times, so the claim that on
every run it is acquired exactly once and released exactly once is false. -/
theorem c3_counterexample :
    ¬ (acqCount (script ⟨true, false, false, false⟩).1 = 1 ∧
       relCount (script ⟨true, false, false, false⟩).1 = 1) := by
  decide

/-- C3 (amended): on every run the browser engine is acquired at most once —
exactly once whenever the launch step itself does not fail — and is released
exactly as many times as it is acquired; on every exit path, normal or
failing at any intermediate step, the run never ends with the engine still
running. -/
theorem c3_engine_lifecycle :
    ∀ env : Env,
      acqCount (script env).1 = (if env.launchFails then 0 else 1) ∧
      relCount (script env).1 = acqCount (script env).1 ∧
      (finalEngineState (script env).1 = EngineState.off ∨
       finalEngineState (script env).1 = EngineState.closed) := by
  decide

/-- C4: on every run where navigation fails, the run fails, the screenshot
operation is never reached, and the filesystem is left completely
unchanged. -/
theorem c4_navigation_failure :
    ∀ env : Env, env.gotoFails = true →
      (script env).2 = false ∧
      (∀ p, Op.screenshot p ∉ (script env).1) ∧
      (∀ img fs p, applyTrace img (script env).1 fs p = fs p) := by
  intro env h
  obtain ⟨a, b, c, d⟩ := env
  simp only at h
  subst h
  cases a <;> cases b <;> cases d <;>
    refine ⟨by decide, ?_, ?_⟩ <;>
    simp [script, run, execBody, runBody, Instr.fails, Instr.op, applyTrace, applyOp]

/-- C4 witness: on the concrete run where only navigation fails, the run
fails, no screenshot is taken, and the empty filesystem stays empty at the
output path. -/
theorem c4_navigation_failure_witness :
    (script ⟨false, false, true, false⟩).2 = false ∧
    Op.screenshot outputPath ∉ (script ⟨false, false, true, false⟩).1 ∧
    applyTrace 0 (script ⟨false, false, true, false⟩).1 emptyFS outputPath = emptyFS outputPath :=
  ⟨(c4_navigation_failure ⟨false, false, true, false⟩ rfl).1,
   (c4_navigation_failure ⟨false, false, true, false⟩ rfl).2.1 outputPath,
   (c4_navigation_failure ⟨false, false, true, false⟩ rfl).2.2 0 emptyFS outputPath⟩

/-- C5: every successful run performs the fixed trace, in which the
unconditional 5000 ms suspension sits between the navigation and the
screenshot; under any assignment of actual durations respecting each
operation's guaranteed minimum, the elapsed time of a successful run is at
least 5000 ms. -/
theorem c5_wait_duration :
    ∀ env : Env, (script env).2 = true → ∀ d : Op → Nat, (∀ o, minDuration o ≤ d o) →
      (script env).1 = fullTrace ∧
      Op.waitForTimeout 5000 ∈ (script env).1 ∧
      5000 ≤ ((script env).1.map d).sum := by
  intro env hok d hd
  have ht := script_ok_trace env hok
  refine ⟨ht, ?_, ?_⟩
  · rw [ht]; decide
  · rw [ht]
    have h5 := hd (Op.waitForTimeout 5000)
    simp only [minDuration] at h5
    simp [fullTrace, waitMs, List.sum]
    omega

/-- C5 witness: the run where no step fails, with every operation taking
exactly its guaranteed minimum duration, lasts at least 5000 ms. -/
theorem c5_wait_duration_witness :
    (script noFailure).1 = fullTrace ∧
    Op.waitForTimeout 5000 ∈ (script noFailure).1 ∧
    5000 ≤ ((script noFailure).1.map minDuration).sum :=
  c5_wait_duration noFailure (by decide) minDuration (fun _ => Nat.le_refl _)

/-- C6: every screenshot any run takes goes to the fixed constant output
path; the write replaces whatever is at that path without error and touches
no other path, so two successful runs in succession leave the second run's
image at the path — an overwrite, not an append and not a collision error —
and every other path exactly as it started. -/
theorem c6_overwrite :
    (∀ env : Env, ∀ p, Op.screenshot p ∈ (script env).1 → p = outputPath) ∧
    (∀ env₁ env₂ : Env, (script env₁).2 = true → (script env₂).2 = true →
      ∀ (fs : FS) (i₁ i₂ : Nat),
        applyTrace i₂ (script env₂).1 (applyTrace i₁ (script env₁).1 fs) outputPath = some i₂ ∧
        (∀ p, p ≠ outputPath →
          applyTrace i₂ (script env₂).1 (applyTrace i₁ (script env₁).1 fs) p = fs p)) := by
  constructor
  · intro env p h
    have hm := mem_script_trace env (Op.screenshot p) h
    simp [fullTrace] at hm
    exact hm
  · intro env₁ env₂ h₁ h₂ fs i₁ i₂
    rw [script_ok_trace env₁ h₁, script_ok_trace env₂ h₂]
    constructor
    · rw [applyTrace_fullTrace, applyTrace_fullTrace]
      simp
    · intro p hp
      rw [applyTrace_fullTrace, applyTrace_fullTrace]
      simp [hp]

/-- C6 witness: after two successful runs starting from the empty
filesystem, the output path holds the second run's image. -/
theorem c6_overwrite_witness :
    outputPath = outputPath ∧
    applyTrace 2 (script noFailure).1 (applyTrace 1 (script noFailure).1 emptyFS) outputPath = some 2 :=
  ⟨c6_overwrite.1 noFailure outputPath (by decide),
   (c6_overwrite.2 noFailure noFailure (by decide) (by decide) emptyFS 1 2).1⟩

/-- C7 counterexample: on the run where navigation fails, the trace contains
zero file writes, so the claim that every run writes exactly one file is
false. -/
theorem c7_counterexample :
    ¬ (((script ⟨false, false, true, false⟩).1.filter isFileWrite).length = 1) := by
  decide

/-- C7 (amended): on every successful run the side effects are exactly one
external process launch, one network/local request and one file write; on
every run, successful or not, each of these effect kinds occurs at most
once and no path other than the fixed output path is ever created or
modified. -/
theorem c7_effect_frame :
    (∀ env : Env, (script env).2 = true →
      ((script env).1.filter isProcessLaunch).length = 1 ∧
      ((script env).1.filter isRequest).length = 1 ∧
      ((script env).1.filter isFileWrite).length = 1) ∧
    (∀ env : Env,
      ((script env).1.filter isProcessLaunch).length ≤ 1 ∧
      ((script env).1.filter isRequest).length ≤ 1 ∧
      ((script env).1.filter isFileWrite).length ≤ 1) ∧
    (∀ env : Env, ∀ img fs p, p ≠ outputPath →
      applyTrace img (script env).1 fs p = fs p) := by
  refine ⟨by decide, by decide, ?_⟩
  intro env img fs p hp
  obtain ⟨a, b, c, d⟩ := env
  cases a <;> cases b <;> cases c <;> cases d <;>
    simp [script, run, execBody, runBody, Instr.fails, Instr.op, applyTrace, applyOp, hp]

/-- C7 witness: the run on which no step fails launches one process, issues
one request and writes one file, and leaves the empty filesystem unchanged
away from the output path. -/
theorem c7_effect_frame_witness :
    (((script noFailure).1.filter isProcessLaunch).length = 1 ∧
     ((script noFailure).1.filter isRequest).length = 1 ∧
     ((script noFailure).1.filter isFileWrite).length = 1) ∧
    applyTrace 0 (script noFailure).1 emptyFS targetURL = emptyFS targetURL :=
  ⟨c7_effect_frame.1 noFailure (by decide),
   c7_effect_frame.2.2 noFailure 0 emptyFS targetURL (by decide)⟩

/-- C8: the script consumes no runtime inputs: its behaviour is identical
under any command-line arguments and any environment variables, and the
target URL, wait duration and output path are hard-coded constants. -/
theorem c8_no_runtime_inputs :
    (∀ (i₁ i₂ : Invocation) (env : Env),
      scriptWithInvocation i₁ env = scriptWithInvocation i₂ env) ∧
    targetURL = "http://localhost:3000/#/admin" ∧
    waitMs = 5000 ∧
    outputPath = "jules-scratch/verification/admin_page.png" :=
  ⟨fun _ _ _ => rfl, rfl, rfl, rfl⟩

/-- C9 counterexample: two runs can issue different operation sequences: the
run on which no step fails issues the full seven-operation trace, while the
run on which the engine fails to launch issues only the driver shutdown, so
the claim that any two runs issue identical operation sequences is false. -/
theorem c9_counterexample :
    ¬ ((script noFailure).1 = (script ⟨true, false, false, false⟩).1) := by
  decide

/-- C9 (amended): determinism: any two successful runs issue the identical
operation sequence, and on any run whatsoever every issued operation carries
the fixed hard-coded arguments — navigation always targets the fixed URL,
the wait is always 5000 ms, the screenshot always goes to the fixed path. -/
theorem c9_determinism :
    (∀ env₁ env₂ : Env, (script env₁).2 = true → (script env₂).2 = true →
      script env₁ = script env₂) ∧
    (∀ (env : Env) (u : String), Op.goto u ∈ (script env).1 → u = targetURL) ∧
    (∀ (env : Env) (ms : Nat), Op.waitForTimeout ms ∈ (script env).1 → ms = waitMs) ∧
    (∀ (env : Env) (p : String), Op.screenshot p ∈ (script env).1 → p = outputPath) := by
  refine ⟨?_, ?_, ?_, ?_⟩
  · intro env₁ env₂ h₁ h₂
    have t := (script_ok_trace env₁ h₁).trans (script_ok_trace env₂ h₂).symm
    have hb : (script env₁).2 = (script env₂).2 := h₁.trans h₂.symm
    exact Prod.ext t hb
  · intro env u h
    have hm := mem_script_trace env (Op.goto u) h
    simp [fullTrace] at hm
    exact hm
  · intro env ms h
    have hm := mem_script_trace env (Op.waitForTimeout ms) h
    simp [fullTrace] at hm
    exact hm
  · intro env p h
    have hm := mem_script_trace env (Op.screenshot p) h
    simp [fullTrace] at hm
    exact hm

/-- C9 witness: the successful run equals itself as a run, and the one
navigation it performs targets the fixed URL. -/
theorem c9_determinism_witness :
    script noFailure = script noFailure ∧ targetURL = targetURL :=
  ⟨c9_determinism.1 noFailure noFailure (by decide) (by decide),
   c9_determinism.2.1 noFailure targetURL (by decide)⟩

/-- C10: the "/admin" route of the fixed target URL is entirely a URL
fragment: the server-visible part of the URL is exactly the root
"http://localhost:3000/" and the fragment is "/admin"; consequently on any
run every navigation is server-visible only as a request for the root page,
never for an "/admin" path. -/
theorem c10_fragment_route :
    serverVisiblePart targetURL = "http://localhost:3000/" ∧
    fragmentPart targetURL = some "/admin" ∧
    (∀ (env : Env) (u : String), Op.goto u ∈ (script env).1 →
      serverVisiblePart u = "http://localhost:3000/") := by
  refine ⟨by decide, by decide, ?_⟩
  intro env u h
  have hm := mem_script_trace env (Op.goto u) h
  simp [fullTrace] at hm
  subst hm
  decide

/-- C10 witness: the navigation the successful run performs is
server-visible as a request for the root page only. -/
theorem c10_fragment_route_witness :
    serverVisiblePart targetURL = "http://localhost:3000/" :=
  c10_fragment_route.2.2 noFailure targetURL (by decide)

end Allenventure
